import Mathlib

/-!
Verification of the smart_triage scoring contract.

This file shallowly embeds the scoring logic of `src/app.py`:
the symptom catalogue `SYMPTOMS`, the severity multiplier table
`SEVERITY_MULTIPLIER`, the delegated (AI) scorer `compute_triage`, the
conversational endpoint `api_chatbot`, and the deterministic scorer variant
described in the specification (section 4.2), which is not present in
`src/app.py` and is therefore modelled from the spec.

External effects (the Groq text-generation call) are modelled as an oracle
parameter of type `String → Except Unit AIData`: `.ok d` stands for a call
that returned text that parsed to the JSON object `d`, and `.error ()`
stands for any failure (missing client, network error, unparseable JSON).
Parsed JSON objects are partial maps, so every schema field is an `Option`.
Scores are modelled as rationals.
-/

namespace SmartTriage

/-- One entry of the symptom catalogue: a weight and a criticality flag
(from the dict values in `src/app.py` lines 79-107). -/
structure Symptom where
  weight : Nat
  critical : Bool
deriving DecidableEq, Repr

/-- The symptom catalogue, transcribed from `SYMPTOMS` in `src/app.py`
(lines 79-107), as an association list in source order. -/
def SYMPTOMS : List (String × Symptom) := [
  ("Chest Pain",                                  { weight := 5, critical := true }),
  ("Difficulty Breathing / Shortness of Breath",  { weight := 5, critical := true }),
  ("Sudden Numbness / Weakness (Face, Arm, Leg)", { weight := 5, critical := true }),
  ("Loss of Consciousness / Fainting",            { weight := 5, critical := true }),
  ("Severe Bleeding (Uncontrollable)",            { weight := 5, critical := true }),
  ("Severe Allergic Reaction / Anaphylaxis",      { weight := 5, critical := true }),
  ("Choking / Difficulty Swallowing",             { weight := 5, critical := true }),
  ("Poisoning / Overdose",                        { weight := 5, critical := true }),
  ("Spinal / Head Injury",                        { weight := 4, critical := true }),
  ("Seizures / Convulsions",                      { weight := 4, critical := true }),
  ("High Fever (> 103¬∞F / 39.4¬∞C)",             { weight := 4, critical := true }),
  ("Severe Abdominal Pain",                       { weight := 4, critical := true }),
  ("Sudden Severe Headache",                      { weight := 4, critical := true }),
  ("Persistent Vomiting / Inability to Keep Fluids Down", { weight := 3, critical := true }),
  ("Severe Burns",                                { weight := 3, critical := true }),
  ("Dehydration",                                 { weight := 3, critical := false }),
  ("Bone Fracture (Visible deformity)",           { weight := 3, critical := false }),
  ("Dizziness / Vertigo",                         { weight := 2, critical := false }),
  ("Nausea",                                      { weight := 2, critical := false }),
  ("Joint Pain / Swelling",                       { weight := 2, critical := false }),
  ("Sprain / Strain",                             { weight := 1, critical := false }),
  ("Cough",                                       { weight := 1, critical := false }),
  ("Sore Throat",                                 { weight := 1, critical := false }),
  ("Rash / Skin Irritation",                      { weight := 1, critical := false }),
  ("Mild Headache",                               { weight := 1, critical := false }),
  ("Mild Cut / Scrape",                           { weight := 1, critical := false }),
  ("Fatigue",                                     { weight := 1, critical := false })]

/-- The severity multiplier table, transcribed from `SEVERITY_MULTIPLIER`
in `src/app.py` (lines 109-113). -/
def SEVERITY_MULTIPLIER : List (String × ℚ) :=
  [("Mild", 1), ("Moderate", 3/2), ("Severe", 2)]

/-! ## Deterministic scorer variant (modelled from the spec, section 4.2) -/

/-- Modelled from the spec: the deterministic scorer of spec section 4.2 is
not present in `src/app.py` (only the delegated variant is); the spec says
the severity multiplier "defaults to 1.0 for unrecognized severities", a
lookup in `SEVERITY_MULTIPLIER` with default 1.0. -/
def multiplier (severity : String) : ℚ :=
  (SEVERITY_MULTIPLIER.lookup severity).getD 1

/-- Catalogue weight of one symptom name: its `weight` when the name
resolves in `SYMPTOMS`, else 0 (spec section 4.2 step 1: "unknown names
contribute 0"). -/
def weightOf (s : String) : Nat :=
  ((SYMPTOMS.lookup s).map Symptom.weight).getD 0

/-- Modelled from the spec: raw score of the deterministic scorer (spec
section 4.2 step 1), the sum of resolved catalogue weights over all
occurrences in the input list. -/
def rawScore (symptoms : List String) : Nat :=
  (symptoms.map weightOf).sum

/-- Modelled from the spec: `has_critical` of the deterministic scorer
(spec section 4.2 step 3) — true iff at least one input name resolves in
the catalogue with `critical = true`. -/
def has_critical (symptoms : List String) : Bool :=
  symptoms.any (fun s => ((SYMPTOMS.lookup s).map Symptom.critical).getD false)

/-- Rounding to one decimal place, as in `round(x, 1)`. Every score the
deterministic scorer can produce is a multiple of 1/2 (weights are natural
numbers and multipliers lie in \x7b1, 3/2, 2\x7d), so ten times it is an
integer and rounding is exact; the half-up tie rule here therefore agrees
with any tie rule on all reachable values. -/
def roundTo1 (q : ℚ) : ℚ :=
  (⌊10 * q + 1/2⌋ : ℚ) / 10

/-- Modelled from the spec: the deterministic score (spec section 4.2
step 2), `score = round(raw * multiplier(severity), 1)`. -/
def detScore (severity : String) (symptoms : List String) : ℚ :=
  roundTo1 ((rawScore symptoms : ℚ) * multiplier severity)

/-- Modelled from the spec: the deterministic priority decision (spec
section 4.2 step 4), in order: auto-escalation to High on Severe plus a
critical symptom, then score buckets at 7 and 4. -/
def detPriority (severity : String) (symptoms : List String) : String :=
  if severity = "Severe" ∧ has_critical symptoms then "High"
  else if detScore severity symptoms ≥ 7 then "High"
  else if detScore severity symptoms ≥ 4 then "Medium"
  else "Low"

/-! ## Delegated (AI) scorer, `compute_triage` in `src/app.py` lines 185-265 -/

/-- The JSON object the prompt asks the model to return, as parsed by
`json.loads` in `compute_triage`. A parsed JSON object is a partial map,
so every field is an `Option` (the code reads each with `.get` and a
default). -/
structure AIData where
  priority_color : Option String := none
  priority_label : Option String := none
  score : Option ℚ := none
  summary : Option String := none
  probable_diagnosis : Option String := none
  risk_factors : Option String := none
  recommended_department : Option String := none
  medical_description : Option String := none
  risk_explanation : Option String := none
  immediate_actions : Option (List String) := none
  medication_suggestions_disclaimer : Option String := none
  medication_suggestions : Option (List String) := none
deriving DecidableEq, Repr

/-- The result dictionary `compute_triage` returns. The success path
builds it as `\x7b**ai_data, ...explicit keys...\x7d`, so the schema
fields pass through as-is (possibly absent, hence `Option`) and the
explicit keys — `selected_symptoms`, `priority`, `color`, `instructions`,
`next_steps`, `reassurance` — are always present. -/
structure TriageResult where
  priority_color : Option String
  priority_label : Option String
  score : Option ℚ
  summary : Option String
  probable_diagnosis : Option String
  risk_factors : Option String
  recommended_department : Option String
  medical_description : Option String
  risk_explanation : Option String
  immediate_actions : Option (List String)
  medication_suggestions_disclaimer : Option String
  medication_suggestions : Option (List String)
  selected_symptoms : List String
  priority : String
  color : String
  instructions : List String
  next_steps : List String
  reassurance : String
deriving DecidableEq, Repr

/-- The prompt f-string of `compute_triage` (`src/app.py` lines 189-217),
with the three interpolations; literal braces of the embedded JSON example
are written as hex escapes. -/
def buildPrompt (severity : String) (selected_symptoms : List String) (description : String) : String :=
  "\n    You are an expert AI triage assistant in a hospital emergency system.\n    Evaluate the following patient:\n    - Symptoms Selected: "
  ++ (if selected_symptoms.isEmpty then "None" else String.intercalate ", " selected_symptoms)
  ++ "\n    - Self-reported Severity: "
  ++ severity
  ++ "\n    - Additional Description: "
  ++ description
  ++ "\n    \n    Classify the patient into one of 4 severity levels:\n    - Green (Normal - Low Priority)\n    - Yellow (Monitor - Monitor closely)\n    - Orange (Urgent - Medium Priority)\n    - Red (Immediate Attention - High Priority)\n    \n    Respond ONLY in valid JSON format matching this exact structure:\n    \x7b\n        \"priority_color\": \"Red\", // Or \"Orange\", \"Yellow\", \"Green\"\n        \"priority_label\": \"Immediate Attention\",\n        \"score\": 9.5, // float 1-10\n        \"summary\": \"Brief 1-sentence patient condition summary\",\n        \"probable_diagnosis\": \"Probable diagnosis based on symptoms\",\n        \"risk_factors\": \"Key risk factors to watch\",\n        \"recommended_department\": \"Emergency/ICU/General/etc.\",\n        \"medical_description\": \"Detailed explanation of what might be happening\",\n        \"risk_explanation\": \"Why this is classified at this level\",\n        \"immediate_actions\": [\"Action 1\", \"Action 2\"],\n        \"medication_suggestions_disclaimer\": \"‚ö†Ô∏è This is AI-generated guidance. Do not take medication without consulting a doctor.\",\n        \"medication_suggestions\": [\"Suggestion 1 (e.g., Paracetamol for fever)\", \"Suggestion 2\"]\n    \x7d\n    "

/-- The priority mapping of the success path (`src/app.py` line 232):
`"High" if p_color == "Red" else ("Medium" if p_color in ["Orange",
"Yellow"] else "Low")`. -/
def mapped_priority (p_color : String) : String :=
  if p_color = "Red" then "High"
  else if p_color = "Orange" ∨ p_color = "Yellow" then "Medium"
  else "Low"

/-- The hardcoded fallback dictionary returned by the `except` branch of
`compute_triage` (`src/app.py` lines 246-265). -/
def fallbackResult (selected_symptoms : List String) : TriageResult where
  score := some 5
  priority := "Medium"
  priority_color := some "Yellow"
  color := "yellow"
  priority_label := some "System Error - Manual Triage Required"
  summary := some "AI classification failed because the Groq API key is missing or invalid in your .env file."
  probable_diagnosis := some "Offline Mode"
  risk_factors := some "Unknown"
  recommended_department := some "Triage"
  medical_description := some "Failed to connect to AI. Please add a valid API key to enable Smart Triage."
  risk_explanation := some "Please consult a doctor manually or add an API key."
  immediate_actions := some ["Consult a doctor immediately if symptoms worsen."]
  instructions := ["Consult a doctor immediately if symptoms worsen."]
  next_steps := ["Wait for a triage nurse."]
  medication_suggestions_disclaimer := some ""
  medication_suggestions := some []
  reassurance := "Our medical team will assess you shortly."
  selected_symptoms := selected_symptoms

/-- The success-path result dictionary of `compute_triage` (`src/app.py`
lines 230-242): `p_color = ai_data.get("priority_color", "Yellow")`, the
priority mapping, and the repackaged guidance fields. -/
def successResult (selected_symptoms : List String) (ai_data : AIData) : TriageResult :=
  let p_color := ai_data.priority_color.getD "Yellow"
  { priority_color := ai_data.priority_color
    priority_label := ai_data.priority_label
    score := ai_data.score
    summary := ai_data.summary
    probable_diagnosis := ai_data.probable_diagnosis
    risk_factors := ai_data.risk_factors
    recommended_department := ai_data.recommended_department
    medical_description := ai_data.medical_description
    risk_explanation := ai_data.risk_explanation
    immediate_actions := ai_data.immediate_actions
    medication_suggestions_disclaimer := ai_data.medication_suggestions_disclaimer
    medication_suggestions := ai_data.medication_suggestions
    selected_symptoms := selected_symptoms
    priority := mapped_priority p_color
    color := p_color.toLower
    instructions := ai_data.immediate_actions.getD []
    next_steps := ["Go to " ++ ai_data.recommended_department.getD "Reception"]
    reassurance := ai_data.risk_explanation.getD "" }

/-- `compute_triage` (`src/app.py` lines 185-265). The external
text-generation call is the oracle `service`, applied to the built prompt:
`.ok d` models a call whose reply parsed to the JSON object `d`, and
`.error ()` models every failure the `except` clause catches (missing
client, a raise from the API call, unparseable JSON). -/
def compute_triage (severity : String) (selected_symptoms : List String)
    (description : String) (service : String → Except Unit AIData) : TriageResult :=
  match service (buildPrompt severity selected_symptoms description) with
  | .ok ai_data => successResult selected_symptoms ai_data
  | .error _ => fallbackResult selected_symptoms

/-! ## Conversational endpoint, `api_chatbot` in `src/app.py` lines 435-479 -/

/-- The `parts` value of one history entry: the caller may send a string
or a list of strings (the code checks `isinstance(content, list)`). -/
inductive Parts
  | str (s : String)
  | list (l : List String)
deriving DecidableEq, Repr

/-- One entry of the incoming chat history, a JSON object with optional
`role` and `parts` keys (read with `.get`). -/
structure HistMsg where
  role : Option String := none
  parts : Option Parts := none
deriving DecidableEq, Repr

/-- One message sent to the text-generation service, a role/content pair. -/
structure ChatMsg where
  role : String
  content : String
deriving DecidableEq, Repr

/-- The chatbot request payload: optional `message` and `history` keys
(`data.get("message", "")`, `data.get("history", [])`). -/
structure ChatPayload where
  message : Option String := none
  history : List HistMsg := []
deriving DecidableEq, Repr

/-- A route response body: either an error object or a response object. -/
inductive ChatBody
  | err (e : String)
  | response (r : String)
deriving DecidableEq, Repr

/-- A route reply: HTTP status plus JSON body. -/
structure HttpReply where
  status : Nat
  body : ChatBody
deriving DecidableEq, Repr

/-- The fixed system instruction of `api_chatbot` (`src/app.py`
lines 452-456). -/
def system_prompt : String :=
  "You are a helpful, empathetic medical AI assistant for the Smart Triage system. You provide general health guidance and advise users to seek professional medical help for serious conditions. Keep answers concise, supportive, and extremely professional."

/-- The fixed offline-mode message of `api_chatbot` (`src/app.py`
line 478). -/
def fallback_msg : String :=
  "Hello! I am currently running in offline mode because the Groq API key is missing or invalid. Please add a valid GROQ_API_KEY to the .env file to enable AI responses."

/-- Python's `str.strip()`: drop whitespace from both ends. Implemented
over the character list so that it evaluates by kernel reduction. -/
def pyStrip (s : String) : String :=
  String.mk (((s.data.dropWhile Char.isWhitespace).reverse.dropWhile Char.isWhitespace).reverse)

/-- Content extraction for one history entry (`src/app.py` lines 461-463):
`msg.get("parts", "")`, and when it is a list, its first element or `""`. -/
def msgContent (p : Option Parts) : String :=
  match p.getD (Parts.str "") with
  | .str s => s
  | .list l => l.headD ""

/-- The message list sent to the service (`src/app.py` lines 458-466):
the system prompt, the converted history (`role == "model"` becomes
`assistant`, anything else `user`), then the user message. -/
def groqHistory (history : List HistMsg) (message : String) : List ChatMsg :=
  ({ role := "system", content := system_prompt } ::
    history.map (fun m =>
      { role := if m.role = some "model" then "assistant" else "user",
        content := msgContent m.parts })) ++ [{ role := "user", content := message }]

/-- `api_chatbot` (`src/app.py` lines 435-479). `data = none` models a
missing or falsy JSON payload; the oracle `service` models the external
chat-completion call, `.error ()` standing for any failure the `except`
clause catches. -/
def api_chatbot (data : Option ChatPayload)
    (service : List ChatMsg → Except Unit String) : HttpReply :=
  match data with
  | none => { status := 400, body := .err "Invalid or missing JSON payload" }
  | some payload =>
    let message := pyStrip (payload.message.getD "")
    if message = "" then { status := 400, body := .err "Message is required" }
    else
      match service (groqHistory payload.history message) with
      | .ok t => { status := 200, body := .response t }
      | .error _ => { status := 200, body := .response fallback_msg }

/-! ## Claim theorems -/

/-- C1: for every input (severity, symptom list, description), whenever the
external text-generation call fails — absent client, a raise, or a reply
that is not parseable JSON, all modelled by the oracle returning
`.error ()` — `compute_triage` returns the one hardcoded fallback result,
whose score is 5.0 and whose priority is "Medium"; the embedding returns it
as a plain value, so the failure is never propagated to the caller. -/
theorem C1_fallback_on_failure (severity : String) (symptoms : List String)
    (description : String) (service : String → Except Unit AIData)
    (hfail : service (buildPrompt severity symptoms description) = .error ()) :
    compute_triage severity symptoms description service = fallbackResult symptoms ∧
    (compute_triage severity symptoms description service).score = some 5 ∧
    (compute_triage severity symptoms description service).priority = "Medium" := by
  have h : compute_triage severity symptoms description service = fallbackResult symptoms := by
    unfold compute_triage
    rw [hfail]
  refine ⟨h, ?_, ?_⟩ <;> rw [h] <;> rfl

/-- Witness for C1: a service that always fails, on a concrete input. -/
theorem C1_fallback_on_failure_witness :
    compute_triage "Mild" ["Cough"] "a dry cough" (fun _ => .error ())
      = fallbackResult ["Cough"] :=
  (C1_fallback_on_failure "Mild" ["Cough"] "a dry cough" (fun _ => .error ()) rfl).1

/-- C2: `compute_triage` is total — for every severity string, symptom
list, description and service behaviour (including while the prompt is
built from the inputs) it returns a result dictionary: a `TriageResult`
holding the input symptom list, whose priority is one of the three levels;
there is no error channel, so no exception reaches the caller. -/
theorem C2_compute_triage_total (severity : String) (symptoms : List String)
    (description : String) (service : String → Except Unit AIData) :
    (compute_triage severity symptoms description service).selected_symptoms = symptoms ∧
    ((compute_triage severity symptoms description service).priority = "High" ∨
     (compute_triage severity symptoms description service).priority = "Medium" ∨
     (compute_triage severity symptoms description service).priority = "Low") := by
  unfold compute_triage
  cases service (buildPrompt severity symptoms description) with
  | error e => exact ⟨rfl, Or.inr (Or.inl rfl)⟩
  | ok d =>
    refine ⟨rfl, ?_⟩
    unfold successResult mapped_priority
    dsimp only
    split
    · exact Or.inl rfl
    split
    · exact Or.inr (Or.inl rfl)
    · exact Or.inr (Or.inr rfl)

/-- C3: in the success path, the returned `priority_color` maps to the
three-level priority exactly as Red → High, Orange → Medium,
Yellow → Medium, Green → Low. -/
theorem C3_color_mapping (severity : String) (symptoms : List String)
    (description : String) (service : String → Except Unit AIData) (d : AIData)
    (hok : service (buildPrompt severity symptoms description) = .ok d) :
    (d.priority_color = some "Red" →
      (compute_triage severity symptoms description service).priority = "High") ∧
    (d.priority_color = some "Orange" →
      (compute_triage severity symptoms description service).priority = "Medium") ∧
    (d.priority_color = some "Yellow" →
      (compute_triage severity symptoms description service).priority = "Medium") ∧
    (d.priority_color = some "Green" →
      (compute_triage severity symptoms description service).priority = "Low") := by
  have h : compute_triage severity symptoms description service = successResult symptoms d := by
    unfold compute_triage
    rw [hok]
  rw [h]
  refine ⟨fun hc => ?_, fun hc => ?_, fun hc => ?_, fun hc => ?_⟩ <;>
    simp [successResult, mapped_priority, hc]

/-- Witness for C3: a service replying with `priority_color = "Red"`. -/
theorem C3_color_mapping_witness :
    (compute_triage "Mild" [] "" (fun _ => .ok { priority_color := some "Red" })).priority
      = "High" :=
  (C3_color_mapping "Mild" [] "" (fun _ => .ok { priority_color := some "Red" })
    { priority_color := some "Red" } rfl).1 rfl

/-- C4: in the success path, `instructions` equals the response's
`immediate_actions` list, `next_steps` is the single-element list with the
"Go to <recommended_department>" string, and `reassurance` equals the
response's `risk_explanation`. -/
theorem C4_repackaging (severity : String) (symptoms : List String)
    (description : String) (service : String → Except Unit AIData) (d : AIData)
    (acts : List String) (dep rx : String)
    (hok : service (buildPrompt severity symptoms description) = .ok d) :
    (d.immediate_actions = some acts →
      (compute_triage severity symptoms description service).instructions = acts) ∧
    (d.recommended_department = some dep →
      (compute_triage severity symptoms description service).next_steps = ["Go to " ++ dep]) ∧
    (d.risk_explanation = some rx →
      (compute_triage severity symptoms description service).reassurance = rx) := by
  have h : compute_triage severity symptoms description service = successResult symptoms d := by
    unfold compute_triage
    rw [hok]
  rw [h]
  refine ⟨fun hc => ?_, fun hc => ?_, fun hc => ?_⟩ <;>
    simp [successResult, hc]

/-- Witness for C4: a service replying with concrete guidance fields. -/
theorem C4_repackaging_witness :
    (compute_triage "Mild" [] ""
        (fun _ => .ok { immediate_actions := some ["Rest"],
                        recommended_department := some "Emergency",
                        risk_explanation := some "Low risk." })).instructions = ["Rest"] ∧
    (compute_triage "Mild" [] ""
        (fun _ => .ok { immediate_actions := some ["Rest"],
                        recommended_department := some "Emergency",
                        risk_explanation := some "Low risk." })).next_steps = ["Go to Emergency"] ∧
    (compute_triage "Mild" [] ""
        (fun _ => .ok { immediate_actions := some ["Rest"],
                        recommended_department := some "Emergency",
                        risk_explanation := some "Low risk." })).reassurance = "Low risk." := by
  have h := C4_repackaging "Mild" [] ""
    (fun _ => .ok { immediate_actions := some ["Rest"],
                    recommended_department := some "Emergency",
                    risk_explanation := some "Low risk." })
    { immediate_actions := some ["Rest"],
      recommended_department := some "Emergency",
      risk_explanation := some "Low risk." }
    ["Rest"] "Emergency" "Low risk." rfl
  refine ⟨h.1 rfl, ?_, h.2.2 rfl⟩
  rw [h.2.1 rfl]
  rfl

/-- C5: the deterministic scorer (modelled from the spec, section 4.2)
assigns priority in order: High when severity is Severe and a resolved
symptom is critical, independent of the score; otherwise by score buckets,
High iff score ≥ 7, else Medium iff score ≥ 4, else Low. -/
theorem C5_priority_order (severity : String) (symptoms : List String) :
    (severity = "Severe" ∧ has_critical symptoms = true →
      detPriority severity symptoms = "High") ∧
    (¬(severity = "Severe" ∧ has_critical symptoms = true) →
      detPriority severity symptoms =
        if detScore severity symptoms ≥ 7 then "High"
        else if detScore severity symptoms ≥ 4 then "Medium"
        else "Low") := by
  constructor
  · intro h
    unfold detPriority
    rw [if_pos h]
  · intro h
    unfold detPriority
    rw [if_neg h]

/-- Witness for C5: auto-escalation fires on Severe plus the critical
symptom "Severe Burns" (whose score 6.0 is below the High bucket), and the
score path classifies Mild "Fatigue" (score 1.0) as Low. -/
theorem C5_priority_order_witness :
    detPriority "Severe" ["Severe Burns"] = "High" ∧
    detPriority "Mild" ["Fatigue"] = "Low" := by
  constructor
  · exact (C5_priority_order "Severe" ["Severe Burns"]).1 ⟨rfl, by decide⟩
  · have h := (C5_priority_order "Mild" ["Fatigue"]).2 (by decide)
    have h1 : rawScore ["Fatigue"] = 1 := by decide
    have h2 : multiplier "Mild" = 1 := rfl
    rw [h]
    simp only [detScore, roundTo1, h1, h2]
    norm_num

/-- C6: the deterministic raw score (modelled from the spec, section 4.2)
sums catalogue weights over input occurrences — additively over list parts,
so each duplicate occurrence adds its weight again — unknown names
contribute 0, and the score is round(raw × multiplier(severity), 1); in
particular the duplicated "Chest Pain" example doubles the score. -/
theorem C6_raw_sum :
    (∀ l1 l2 : List String, rawScore (l1 ++ l2) = rawScore l1 + rawScore l2) ∧
    (∀ s : String, SYMPTOMS.lookup s = none → rawScore [s] = 0) ∧
    (∀ severity symptoms, detScore severity symptoms
        = roundTo1 ((rawScore symptoms : ℚ) * multiplier severity)) ∧
    detScore "Mild" ["Chest Pain", "Chest Pain"] = 2 * detScore "Mild" ["Chest Pain"] := by
  refine ⟨?_, ?_, fun _ _ => rfl, ?_⟩
  · intro l1 l2
    simp [rawScore]
  · intro s h
    simp [rawScore, weightOf, h]
  · have h1 : rawScore ["Chest Pain", "Chest Pain"] = 10 := by decide
    have h2 : rawScore ["Chest Pain"] = 5 := by decide
    have h3 : multiplier "Mild" = 1 := rfl
    simp only [detScore, roundTo1, h1, h2, h3]
    norm_num

/-- Witness for C6: concrete lists for additivity and a name missing from
the catalogue contributing zero. -/
theorem C6_raw_sum_witness :
    rawScore (["Cough"] ++ ["Nausea"]) = rawScore ["Cough"] + rawScore ["Nausea"] ∧
    rawScore ["Unlisted Symptom"] = 0 :=
  ⟨C6_raw_sum.1 ["Cough"] ["Nausea"], C6_raw_sum.2.1 "Unlisted Symptom" (by decide)⟩

/-- C7: every catalogue entry has a unique name key, an integer weight ≥ 1
and a boolean critical flag; the embedding of `SYMPTOMS` is a constant
definition that no operation in the source writes to, so it is never
mutated after process start. -/
theorem C7_catalogue_wellformed :
    (SYMPTOMS.map Prod.fst).Nodup ∧ ∀ e ∈ SYMPTOMS, 1 ≤ e.2.weight := by
  constructor
  · decide
  · decide

/-- Witness for C7: the first catalogue entry has weight at least 1. -/
theorem C7_catalogue_wellformed_witness :
    1 ≤ (("Chest Pain", Symptom.mk 5 true)).2.weight :=
  C7_catalogue_wellformed.2 ("Chest Pain", Symptom.mk 5 true) (by decide)

/-- C8: the severity table binds exactly Mild, Moderate and Severe to
multipliers 1.0, 1.5 and 2.0, and (modelled from the spec, section 3) every
other severity value gets multiplier 1.0 in the deterministic scorer. -/
theorem C8_severity_table :
    SEVERITY_MULTIPLIER.map Prod.fst = ["Mild", "Moderate", "Severe"] ∧
    multiplier "Mild" = 1 ∧ multiplier "Moderate" = 3/2 ∧ multiplier "Severe" = 2 ∧
    ∀ s : String, s ≠ "Mild" → s ≠ "Moderate" → s ≠ "Severe" → multiplier s = 1 := by
  refine ⟨rfl, rfl, rfl, rfl, ?_⟩
  intro s h1 h2 h3
  have e1 : (s == "Mild") = false := beq_eq_false_iff_ne.mpr h1
  have e2 : (s == "Moderate") = false := beq_eq_false_iff_ne.mpr h2
  have e3 : (s == "Severe") = false := beq_eq_false_iff_ne.mpr h3
  simp [multiplier, SEVERITY_MULTIPLIER, List.lookup, e1, e2, e3]

/-- Witness for C8: an unrecognized severity gets multiplier 1. -/
theorem C8_severity_table_witness : multiplier "Extreme" = 1 :=
  C8_severity_table.2.2.2.2 "Extreme" (by decide) (by decide) (by decide)

/-- C9: for every chatbot request with a non-empty (stripped) message,
when the external call fails or the client is absent — the oracle returning
`.error ()` — `api_chatbot` answers HTTP 200 with the one fixed
offline-mode message instead of raising. -/
theorem C9_chatbot_fallback (payload : ChatPayload)
    (service : List ChatMsg → Except Unit String)
    (hmsg : pyStrip (payload.message.getD "") ≠ "")
    (hfail : service (groqHistory payload.history (pyStrip (payload.message.getD "")))
      = .error ()) :
    api_chatbot (some payload) service
      = { status := 200, body := .response fallback_msg } := by
  unfold api_chatbot
  dsimp only
  rw [if_neg hmsg, hfail]

/-- Witness for C9: a concrete non-empty message and a failing service. -/
theorem C9_chatbot_fallback_witness :
    api_chatbot (some { message := some "I have a mild headache." }) (fun _ => .error ())
      = { status := 200, body := .response fallback_msg } :=
  C9_chatbot_fallback { message := some "I have a mild headache." } (fun _ => .error ())
    (by decide) rfl

/-- C10: in the success path, a response with no `priority_color` field is
treated as "Yellow", giving priority "Medium", and any color other than
"Red", "Orange" or "Yellow" — in particular any unrecognized color outside
the four-value schema — gives priority "Low". -/
theorem C10_default_and_unknown_colors (severity : String) (symptoms : List String)
    (description : String) (service : String → Except Unit AIData) (d : AIData)
    (hok : service (buildPrompt severity symptoms description) = .ok d) :
    (d.priority_color = none →
      (compute_triage severity symptoms description service).priority = "Medium") ∧
    (∀ c : String, d.priority_color = some c →
      c ≠ "Red" → c ≠ "Orange" → c ≠ "Yellow" →
      (compute_triage severity symptoms description service).priority = "Low") := by
  have h : compute_triage severity symptoms description service = successResult symptoms d := by
    unfold compute_triage
    rw [hok]
  rw [h]
  constructor
  · intro hc
    simp [successResult, mapped_priority, hc]
  · intro c hc h1 h2 h3
    simp [successResult, mapped_priority, hc, h1, h2, h3]

/-- Witness for C10: a response with the field absent, and one with the
unrecognized color "Purple". -/
theorem C10_default_and_unknown_colors_witness :
    (compute_triage "Mild" [] "" (fun _ => .ok { priority_color := none })).priority
      = "Medium" ∧
    (compute_triage "Mild" [] "" (fun _ => .ok { priority_color := some "Purple" })).priority
      = "Low" :=
  ⟨(C10_default_and_unknown_colors "Mild" [] ""
      (fun _ => .ok { priority_color := none }) { priority_color := none } rfl).1 rfl,
   (C10_default_and_unknown_colors "Mild" [] ""
      (fun _ => .ok { priority_color := some "Purple" }) { priority_color := some "Purple" }
      rfl).2 "Purple" rfl (by decide) (by decide) (by decide)⟩

end SmartTriage
